import Mathlib

/-!
A shallow embedding of the storage-handle subsystem of nda
(src/c++/nda/storage/handle.hpp): the heap, stack, SSO, shared and
borrowed handle variants, together with models of the process-wide
reference-count table and of the allocator (whose sources, rtable.hpp and
allocators.hpp, are not among the provided files and are therefore
modelled from the specification), and proofs of the claimed properties.

Pointers are modelled as (block id, element offset) pairs; the allocator
hands out fresh block ids, and a `World` records the observable effects
(allocator calls, deallocations, element copy-constructions, element
destructor invocations, foreign release callbacks) that several claims
count.  Each handle carries, next to the fields of the C++ struct, a list
`elems` shadowing the contents of the block its data pointer designates.
-/

namespace NdaMem

/-- A typed pointer into a memory block: the id of the block and an
element offset into it.  The C++ pointer arithmetic `p + k` becomes
`Ptr.addOff p k`. -/
structure Ptr where
  block : Nat
  off : Nat
deriving DecidableEq

/-- Pointer plus element offset. -/
def Ptr.addOff (p : Ptr) (k : Nat) : Ptr :=
  { block := p.block, off := p.off + k }

/-- Modelled from the spec: the allocator abstraction and the C++ object
model (allocators.hpp and blk.hpp are not among the provided sources).
Spec 4.2: `allocate` returns a block of fresh memory, fatally failing
rather than returning null, so the model always hands out a block id never
handed out before.  The world also counts the effects the testable
properties of spec 8 observe: allocator calls, deallocations, element
copy-constructions, element destructor invocations and foreign release
callbacks.  `next` numbers allocator blocks and also the inline buffers of
stack/SSO objects (every C++ object has its own storage at a distinct
address); drawing an inline buffer id from `next` is not an allocator
call. -/
structure World where
  next : Nat := 1
  allocs : Nat := 0
  deallocs : Nat := 0
  copies : Nat := 0
  dtors : Nat := 0
  foreignReleases : Nat := 0
deriving DecidableEq

/-- A fresh block id for the inline buffer of a newly created stack/SSO
object: not an allocator call. -/
def World.freshBlock (w : World) : Ptr × World :=
  ({ block := w.next, off := 0 }, { w with next := w.next + 1 })

/-- One allocator call (allocate or allocate_zero: both return one fresh
block). -/
def World.allocate (w : World) : Ptr × World :=
  let p := w.freshBlock
  (p.1, { p.2 with allocs := p.2.allocs + 1 })

/-- One deallocation. -/
def World.deallocate (w : World) : World :=
  { w with deallocs := w.deallocs + 1 }

/-- Effect of the destructor loop over n elements; skipped when the
element type is trivial (`triv` stands for std::is_trivial_v of T). -/
def World.destroyElems (triv : Bool) (n : Nat) (w : World) : World :=
  { w with dtors := w.dtors + (if triv then 0 else n) }

/-- Effect of copying n elements (placement-new loop, or memcpy for
trivially copyable element types: n elements move either way). -/
def World.copyElems (n : Nat) (w : World) : World :=
  { w with copies := w.copies + n }

/-- Pointwise update of a count table. -/
def updFn (f : Nat → Nat) (k v : Nat) : Nat → Nat :=
  fun i => if i = k then v else f i

/-- Modelled from the spec: the process-wide reference-count table
(rtable.hpp is not among the provided sources).  Spec 4.1: `get` allocates
a fresh id with count 1 under the id-allocation lock, `incref` atomically
increments, `decref` atomically decrements and returns true iff this
decrement made the count reach zero, and `refcounts` backs the diagnostic
read.  Id 0 is reserved and means "not shared", so `nextId` starts at 1
and only grows. -/
structure RTable where
  counts : Nat → Nat
  nextId : Nat

/-- Allocate a fresh id with count 1 (spec 4.1, under the id-allocation
lock; the embedding is sequential, so the lock has no residue). -/
def RTable.get (t : RTable) : Nat × RTable :=
  (t.nextId, { counts := updFn t.counts t.nextId 1, nextId := t.nextId + 1 })

/-- Atomic increment of an id's count. -/
def RTable.incref (t : RTable) (i : Nat) : RTable :=
  { t with counts := updFn t.counts i (t.counts i + 1) }

/-- Atomic decrement; the Bool is true iff this decrement made the count
reach zero (you are the last holder). -/
def RTable.decref (t : RTable) (i : Nat) : Bool × RTable :=
  (decide (t.counts i - 1 = 0), { t with counts := updFn t.counts i (t.counts i - 1) })

/-- The heap handle (handle.hpp lines 109-247): data pointer, element
count, and the mutable shared-table id `_id` (0 = no memory sharing).
`elems` shadows the contents of the block `_data` designates. -/
structure handle_heap (α : Type) where
  _data : Option Ptr := none
  _size : Nat := 0
  _id : Nat := 0
  elems : List α := []
deriving DecidableEq

/-- is_null (line 234): true iff the data pointer is null. -/
def handle_heap.is_null {α : Type} (h : handle_heap α) : Bool :=
  h._data.isNone

/-- data (line 244). -/
def handle_heap.data {α : Type} (h : handle_heap α) : Option Ptr :=
  h._data

/-- size (line 246). -/
def handle_heap.size {α : Type} (h : handle_heap α) : Nat :=
  h._size

/-- has_shared_memory (line 138): the id is non-zero. -/
def handle_heap.has_shared_memory {α : Type} (h : handle_heap α) : Bool :=
  decide (h._id ≠ 0)

/-- handle_heap::decref, the destructor body (lines 122-136): a null
handle does nothing; if the memory is shared and the table decref reports
remaining holders, nothing more happens; otherwise the element destructors
run (skipped for trivial element types) and the block is deallocated. -/
def handle_heap.decref {α : Type} (triv : Bool) (h : handle_heap α)
    (t : RTable) (w : World) : RTable × World :=
  if h.is_null then (t, w)
  else if h.has_shared_memory then
    let r := RTable.decref t h._id
    if r.1 then (r.2, World.deallocate (World.destroyElems triv h._size w))
    else (r.2, w)
  else (t, World.deallocate (World.destroyElems triv h._size w))

/-- handle_heap(long size) (lines 192-209): size 0 gives the null handle
with no allocation; otherwise one allocator call (allocate_zero for
complex types under the global flag, allocate otherwise: one block either
way) and default construction of the elements. -/
def handle_heap.construct (α : Type) [Inhabited α] (sz : Nat) (w : World) :
    handle_heap α × World :=
  if sz = 0 then ({}, w)
  else
    let b := w.allocate
    ({ _data := some b.1, _size := sz, _id := 0,
       elems := List.replicate sz default }, b.2)

/-- handle_heap(long size, do_not_initialize_t) (lines 173-179): allocate
without constructing the elements; the model fills `elems` with default
values standing for the indeterminate ones. -/
def handle_heap.constructDNI (α : Type) [Inhabited α] (sz : Nat) (w : World) :
    handle_heap α × World :=
  if sz = 0 then ({}, w)
  else
    let b := w.allocate
    ({ _data := some b.1, _size := sz, _id := 0,
       elems := List.replicate sz default }, b.2)

/-- Copy construction handle_heap(handle_heap const &x) (lines 212-219):
delegate to the do_not_initialize constructor at x.size() (so the clone's
`_id` is 0), then copy the elements. -/
def handle_heap.copy {α : Type} [Inhabited α] (x : handle_heap α) (w : World) :
    handle_heap α × World :=
  let c := handle_heap.constructDNI α x.size w
  if c.1.is_null then c
  else ({ c.1 with elems := x.elems }, World.copyElems x.size c.2)

/-- The stack handle (lines 251-312): a buffer of exactly `Size` elements
inside the object itself; `bufAddr` is the block id of that buffer and
`elems` its contents. -/
structure handle_stack (α : Type) (Size : Nat) where
  bufAddr : Nat
  elems : List α
deriving DecidableEq

/-- data (line 265): the address of the object's own buffer. -/
def handle_stack.data {α : Type} {Size : Nat} (h : handle_stack α Size) : Ptr :=
  { block := h.bufAddr, off := 0 }

/-- is_null (line 310): statically false. -/
def handle_stack.is_null {α : Type} {Size : Nat} (_ : handle_stack α Size) : Bool :=
  false

/-- size (line 311): statically the capacity `Size`. -/
def handle_stack.size {α : Type} {Size : Nat} (_ : handle_stack α Size) : Nat :=
  Size

/-- handle_stack(long size) (lines 285-290): the size argument is ignored
(the buffer always holds `Size` elements); non-trivial non-complex
elements are default constructed in place. -/
def handle_stack.construct (α : Type) [Inhabited α] (Size : Nat) (sz : Nat)
    (w : World) : handle_stack α Size × World :=
  let b := w.freshBlock
  ({ bufAddr := b.1.block, elems := List.replicate Size default }, b.2)

/-- The SSO handle (lines 316-471): an inline buffer of `Size` elements
plus data pointer and element count; a count above `Size` means the data
lives in a separately allocated heap block. -/
structure handle_sso (α : Type) (Size : Nat) where
  bufAddr : Nat
  _data : Option Ptr := none
  _size : Nat := 0
  elems : List α := []
deriving DecidableEq

/-- on_heap (line 333): the current size exceeds the inline capacity. -/
def handle_sso.on_heap {α : Type} {Size : Nat} (h : handle_sso α Size) : Bool :=
  decide (Size < h._size)

/-- is_null (line 335). -/
def handle_sso.is_null {α : Type} {Size : Nat} (h : handle_sso α Size) : Bool :=
  h._data.isNone

/-- data (line 342). -/
def handle_sso.data {α : Type} {Size : Nat} (h : handle_sso α Size) : Option Ptr :=
  h._data

/-- size (line 347). -/
def handle_sso.size {α : Type} {Size : Nat} (h : handle_sso α Size) : Nat :=
  h._size

/-- handle_sso::clean (lines 352-360): a null handle does nothing;
otherwise the `_size` element destructors run (skipped for trivial
types), a heap-resident block is deallocated, and the data pointer is
nulled (the size field is left as it was, exactly as in the source). -/
def handle_sso.clean {α : Type} {Size : Nat} (triv : Bool)
    (h : handle_sso α Size) (w : World) : handle_sso α Size × World :=
  if h.is_null then (h, w)
  else
    let w1 := World.destroyElems triv h._size w
    let w2 := if h.on_heap then World.deallocate w1 else w1
    ({ h with _data := none, elems := [] }, w2)

/-- Move construction handle_sso(handle_sso &&x) (lines 365-378): copy
x's size; on the heap path steal x's data pointer; on the inline path
with nonzero size point at the new object's own inline buffer and
placement-copy the elements; finally null out the source (no destructor
runs on the source's elements).  Returns (new handle, source after the
move, world); the new object's inline buffer id is drawn fresh. -/
def handle_sso.moveCtor {α : Type} {Size : Nat} (x : handle_sso α Size)
    (w : World) : handle_sso α Size × handle_sso α Size × World :=
  let b := w.freshBlock
  let xAfter : handle_sso α Size := { x with _data := none, _size := 0, elems := [] }
  if Size < x._size then
    ({ bufAddr := b.1.block, _data := x._data, _size := x._size, elems := x.elems },
     xAfter, b.2)
  else if x._size ≠ 0 then
    ({ bufAddr := b.1.block, _data := some b.1, _size := x._size, elems := x.elems },
     xAfter, World.copyElems x._size b.2)
  else
    ({ bufAddr := b.1.block }, xAfter, b.2)

/-- Move assignment handle_sso::operator=(handle_sso &&x) (lines
380-394): clean() the destination first, then the same heap-steal /
inline-copy split as move construction, the inline copy landing in the
destination's own (pre-existing) inline buffer; the source ends null. -/
def handle_sso.moveAssign {α : Type} {Size : Nat} (triv : Bool)
    (d x : handle_sso α Size) (w : World) :
    handle_sso α Size × handle_sso α Size × World :=
  let c := handle_sso.clean triv d w
  let xAfter : handle_sso α Size := { x with _data := none, _size := 0, elems := [] }
  if Size < x._size then
    ({ c.1 with _data := x._data, _size := x._size, elems := x.elems }, xAfter, c.2)
  else if x._size ≠ 0 then
    ({ c.1 with _data := some (Ptr.mk c.1.bufAddr 0), _size := x._size, elems := x.elems },
     xAfter, World.copyElems x._size c.2)
  else
    ({ c.1 with _data := none, _size := 0, elems := [] }, xAfter, c.2)

/-- handle_sso(long size) (lines 448-470): size 0 gives the null handle;
a size up to the capacity uses the object's own inline buffer with no
allocator call; a larger size allocates one heap block; elements are
default constructed for non-trivial non-complex types. -/
def handle_sso.construct (α : Type) [Inhabited α] (Size : Nat) (sz : Nat)
    (w : World) : handle_sso α Size × World :=
  let b := w.freshBlock
  if sz = 0 then ({ bufAddr := b.1.block }, b.2)
  else if sz ≤ Size then
    ({ bufAddr := b.1.block, _data := some b.1, _size := sz,
       elems := List.replicate sz default }, b.2)
  else
    let a := b.2.allocate
    ({ bufAddr := b.1.block, _data := some a.1, _size := sz,
       elems := List.replicate sz default }, a.2)

/-- handle_sso(long size, do_not_initialize_t) (lines 397-408): the same
residency split without constructing elements (the model fills `elems`
with default values standing for the indeterminate ones). -/
def handle_sso.constructDNI (α : Type) [Inhabited α] (Size : Nat) (sz : Nat)
    (w : World) : handle_sso α Size × World :=
  let b := w.freshBlock
  if sz = 0 then ({ bufAddr := b.1.block }, b.2)
  else if sz ≤ Size then
    ({ bufAddr := b.1.block, _data := some b.1, _size := sz,
       elems := List.replicate sz default }, b.2)
  else
    let a := b.2.allocate
    ({ bufAddr := b.1.block, _data := some a.1, _size := sz,
       elems := List.replicate sz default }, a.2)

/-- Copy construction handle_sso(handle_sso const &x) (lines 426-428):
delegate to the do_not_initialize constructor at x.size(), then
placement-copy the `_size` elements. -/
def handle_sso.copy {α : Type} {Size : Nat} [Inhabited α]
    (x : handle_sso α Size) (w : World) : handle_sso α Size × World :=
  let c := handle_sso.constructDNI α Size x.size w
  ({ c.1 with elems := x.elems }, World.copyElems x.size c.2)

/-- The shared handle (lines 475-610): data pointer, element count, table
id (0 iff null), and the optional foreign handle / foreign decref pair
for buffers adopted from an external library. -/
structure handle_shared (α : Type) where
  _data : Option Ptr := none
  _size : Nat := 0
  _id : Nat := 0
  _foreign_handle : Option Nat := none
  _foreign_decref : Option Nat := none
  elems : List α := []
deriving DecidableEq

/-- is_null (line 595). -/
def handle_shared.is_null {α : Type} (h : handle_shared α) : Bool :=
  h._data.isNone

/-- data (line 607). -/
def handle_shared.data {α : Type} (h : handle_shared α) : Option Ptr :=
  h._data

/-- size (line 609). -/
def handle_shared.size {α : Type} (h : handle_shared α) : Nat :=
  h._size

/-- handle_shared::incref (lines 514-519): an unconditional table
increment of `_id` (a debug assertion demands the handle be non-null,
but the increment itself is unconditional). -/
def handle_shared.incref {α : Type} (h : handle_shared α) (t : RTable) : RTable :=
  RTable.incref t h._id

/-- handle_shared::decref (lines 493-512): a null handle does nothing;
otherwise the table decref runs; if holders remain nothing more happens;
if this was the last holder, a foreign buffer is released through the
foreign callback, and a native one has its elements destroyed (skipped
for trivial types) and its block deallocated. -/
def handle_shared.decref {α : Type} (triv : Bool) (h : handle_shared α)
    (t : RTable) (w : World) : RTable × World :=
  if h.is_null then (t, w)
  else
    let r := RTable.decref t h._id
    if r.1 then
      if h._foreign_handle.isSome then
        (r.2, { w with foreignReleases := w.foreignReleases + 1 })
      else (r.2, World.deallocate (World.destroyElems triv h._size w))
    else (r.2, w)

/-- handle_shared::_copy (lines 523-529): copy the
(pointer, size, id, foreign handle, foreign decref) tuple; no reference
counting here. -/
def handle_shared._copy {α : Type} (x : handle_shared α) : handle_shared α :=
  { _data := x._data, _size := x._size, _id := x._id,
    _foreign_handle := x._foreign_handle, _foreign_decref := x._foreign_decref,
    elems := x.elems }

/-- Copy construction handle_shared(handle_shared const &x) (lines
536-539): copy the tuple, then incref only when non-null. -/
def handle_shared.copyCtor {α : Type} (x : handle_shared α) (t : RTable) :
    handle_shared α × RTable :=
  let s := handle_shared._copy x
  (s, if s.is_null then t else handle_shared.incref s t)

/-- Copy assignment handle_shared::operator= (lines 550-555): decref the
old value, copy the tuple, then incref() unconditionally - also when the
source (hence the result) is null, in which case the table's reserved
slot 0 is incremented and incref's debug assertion is violated. -/
def handle_shared.assign {α : Type} (triv : Bool) (d x : handle_shared α)
    (t : RTable) (w : World) : handle_shared α × RTable × World :=
  let r := handle_shared.decref triv d t w
  let s := handle_shared._copy x
  (s, handle_shared.incref s r.1, r.2)

/-- refcount (line 604): the diagnostic table read for this handle's id. -/
def handle_shared.refcount {α : Type} (h : handle_shared α) (t : RTable) : Nat :=
  t.counts h._id

/-- Cross construction handle_shared(handle_heap const &x) (lines
578-590): data and size are taken over; a null source leaves the id 0; a
source with id 0 first registers a fresh id in the table (the
check-lock-recheck-assign collapses to check-assign in this sequential
embedding) and writes it into the heap handle's mutable `_id`; then the
shared handle adopts that id and increments its count.  Returns (shared
handle, heap handle after the construction, table). -/
def handle_shared.crossFromHeap {α : Type} (x : handle_heap α) (t : RTable) :
    handle_shared α × handle_heap α × RTable :=
  if x.is_null then
    ({ _data := x._data, _size := x._size, elems := x.elems }, x, t)
  else if x._id = 0 then
    let g := RTable.get t
    let s : handle_shared α :=
      { _data := x._data, _size := x._size, _id := g.1, elems := x.elems }
    (s, { x with _id := g.1 }, handle_shared.incref s g.2)
  else
    let s : handle_shared α :=
      { _data := x._data, _size := x._size, _id := x._id, elems := x.elems }
    (s, x, handle_shared.incref s t)

/-- Copy construction handle_heap(handle_shared const &x) (lines
222-229): the same clone-the-data construction as the heap-from-heap
copy, again with the delegating constructor's id 0. -/
def handle_heap.copyFromShared {α : Type} [Inhabited α] (x : handle_shared α)
    (w : World) : handle_heap α × World :=
  let c := handle_heap.constructDNI α x.size w
  if c.1.is_null then c
  else ({ c.1 with elems := x.elems }, World.copyElems x.size c.2)

/-- The borrowed handle (lines 614-659): a data pointer plus an optional
parent back-reference, set only by the heap-handle/void-allocator
constructor; the C++ parent pointer is modelled by the parent handle's
value. -/
structure handle_borrowed (α : Type) where
  _parent : Option (handle_heap α) := none
  _data : Option Ptr := none
deriving DecidableEq

/-- is_null (line 653). -/
def handle_borrowed.is_null {α : Type} (h : handle_borrowed α) : Bool :=
  h._data.isNone

/-- data (line 658). -/
def handle_borrowed.data {α : Type} (h : handle_borrowed α) : Option Ptr :=
  h._data

/-- parent (line 655). -/
def handle_borrowed.parent {α : Type} (h : handle_borrowed α) :
    Option (handle_heap α) :=
  h._parent

/-- The borrowed constructors' pointer arithmetic x.data() + offset; a
null source pointer stays null. -/
def dataPlus (x : Option Ptr) (k : Nat) : Option Ptr :=
  Option.map (fun p => Ptr.addOff p k) x

/-- handle_borrowed(T *ptr) (line 627): raw pointer, no parent. -/
def handle_borrowed.ofPtr (α : Type) (p : Option Ptr) : handle_borrowed α :=
  { _data := p }

/-- The defaulted copy constructor (line 628): copies both fields,
the parent included. -/
def handle_borrowed.copyCtor {α : Type} (x : handle_borrowed α) :
    handle_borrowed α :=
  x

/-- handle_borrowed(handle_borrowed const &x, long offset) (lines 630 and
638): offset view into another borrowed handle; the parent field is left
at its default null. -/
def handle_borrowed.ofBorrowed {α : Type} (x : handle_borrowed α) (k : Nat) :
    handle_borrowed α :=
  { _data := dataPlus x._data k }

/-- handle_borrowed(handle_heap<T0, void> const &x, long offset) (line
632): records the parent and points at x.data() + offset; the heap handle
is taken by const reference and no field of it is written, so the
construction returns it unchanged. -/
def handle_borrowed.ofHeap {α : Type} (x : handle_heap α) (k : Nat) :
    handle_borrowed α × handle_heap α :=
  ({ _parent := some x, _data := dataPlus x._data k }, x)

/-- handle_borrowed(handle_heap<T0, Alloc> const &x, long offset) (line
635), the template overload for every non-void allocator: the parent is
explicitly null. -/
def handle_borrowed.ofHeapAlloc {α : Type} (x : handle_heap α) (k : Nat) :
    handle_borrowed α :=
  { _parent := none, _data := dataPlus x._data k }

/-- handle_borrowed(handle_shared const &x, long offset) (line 637): no
parent. -/
def handle_borrowed.ofShared {α : Type} (x : handle_shared α) (k : Nat) :
    handle_borrowed α :=
  { _data := dataPlus x._data k }

/-- handle_borrowed(handle_stack const &x, long offset) (line 641): no
parent. -/
def handle_borrowed.ofStack {α : Type} {Size : Nat} (x : handle_stack α Size)
    (k : Nat) : handle_borrowed α :=
  { _data := some (Ptr.addOff x.data k) }

/-- handle_borrowed(handle_sso const &x, long offset) (line 644): no
parent. -/
def handle_borrowed.ofSSO {α : Type} {Size : Nat} (x : handle_sso α Size)
    (k : Nat) : handle_borrowed α :=
  { _data := dataPlus x._data k }

/-- The default constructor (line 625): null data, null parent. -/
def handle_borrowed.defaultCtor (α : Type) : handle_borrowed α :=
  {}

/-!  Concrete fixtures used by witnesses and counterexamples. -/

/-- A concrete reference-count table: all counts 0, first fresh id 1. -/
def tbl0 : RTable :=
  { counts := fun _ => 0, nextId := 1 }

/-- A concrete world state. -/
def w0 : World :=
  {}

/-- A concrete non-null, not-yet-shared heap handle. -/
def heapSample : handle_heap Nat :=
  { _data := some (Ptr.mk 1 0), _size := 2, _id := 0, elems := [5, 7] }

/-- The null shared handle. -/
def nullShared : handle_shared Nat :=
  {}

/-- A concrete heap handle already promoted to shared (id 1). -/
def heapShared : handle_heap Nat :=
  { _data := some (Ptr.mk 1 0), _size := 2, _id := 1, elems := [5, 7] }

/-- A concrete non-null shared handle with id 1 over a native buffer. -/
def sharedSample : handle_shared Nat :=
  { _data := some (Ptr.mk 1 0), _size := 2, _id := 1, elems := [5, 7] }

/-- A concrete table where id 1 has count 2. -/
def tblTwo : RTable :=
  { counts := updFn (fun _ => 0) 1 2, nextId := 2 }

/-- A concrete table where id 1 has count 1. -/
def tblOne : RTable :=
  { counts := updFn (fun _ => 0) 1 1, nextId := 2 }

/-- A concrete heap-resident SSO handle (capacity 2, size 4). -/
def ssoHeapRes : handle_sso Nat 2 :=
  { bufAddr := 2, _data := some (Ptr.mk 9 0), _size := 4, elems := [1, 2, 3, 4] }

/-- A concrete inline-resident SSO handle (capacity 2, size 2). -/
def ssoInline : handle_sso Nat 2 :=
  { bufAddr := 3, _data := some (Ptr.mk 3 0), _size := 2, elems := [8, 9] }

/-- A concrete inline-resident SSO destination handle. -/
def ssoDest : handle_sso Nat 2 :=
  { bufAddr := 4, _data := some (Ptr.mk 4 0), _size := 1, elems := [6] }

/-- A concrete world whose block ids below 10 are all in use. -/
def wBig : World :=
  { next := 10 }

/-!  Helper lemmas shared by the claim proofs. -/

theorem updFn_self (f : Nat → Nat) (k v : Nat) : updFn f k v k = v := by
  simp [updFn]

theorem updFn_of_ne (f : Nat → Nat) (k v i : Nat) (h : i ≠ k) :
    updFn f k v i = f i := by
  simp [updFn, h]

/-- Cross construction from a non-null heap handle that is not yet
registered (id 0): a fresh id is drawn, written into the heap handle, and
incremented once on top of the registration count. -/
theorem crossFromHeap_eq_of_unregistered {α : Type} (x : handle_heap α)
    (t : RTable) (hd : x._data.isNone = false) (hid : x._id = 0) :
    handle_shared.crossFromHeap x t
      = ({ _data := x._data, _size := x._size, _id := t.nextId, elems := x.elems },
         { x with _id := t.nextId },
         RTable.incref (RTable.get t).2 t.nextId) := by
  unfold handle_shared.crossFromHeap
  simp [handle_heap.is_null, hd, hid, handle_shared.incref, RTable.get]

/-- Cross construction from a non-null heap handle that is already
registered (id non-zero): the id is reused, the heap handle untouched,
and the count incremented. -/
theorem crossFromHeap_eq_of_registered {α : Type} (x : handle_heap α)
    (t : RTable) (hd : x._data.isNone = false) (hid : x._id ≠ 0) :
    handle_shared.crossFromHeap x t
      = ({ _data := x._data, _size := x._size, _id := x._id, elems := x.elems },
         x, RTable.incref t x._id) := by
  unfold handle_shared.crossFromHeap
  simp [handle_heap.is_null, hd, hid, handle_shared.incref]

/-- Heap handle destruction when the handle was never shared: elements
destroyed, block deallocated, table untouched. -/
theorem handle_heap_decref_not_shared {α : Type} (triv : Bool)
    (h : handle_heap α) (t : RTable) (w : World)
    (hd : h._data.isNone = false) (hid : h._id = 0) :
    handle_heap.decref triv h t w
      = (t, World.deallocate (World.destroyElems triv h._size w)) := by
  unfold handle_heap.decref
  simp [handle_heap.is_null, hd, handle_heap.has_shared_memory, hid]

/-- Heap handle destruction when the handle is shared and other holders
remain: only the table count moves; nothing is destroyed or freed. -/
theorem handle_heap_decref_shared_remain {α : Type} (triv : Bool)
    (h : handle_heap α) (t : RTable) (w : World)
    (hd : h._data.isNone = false) (hid : h._id ≠ 0)
    (hc : t.counts h._id - 1 ≠ 0) :
    handle_heap.decref triv h t w = ((RTable.decref t h._id).2, w) := by
  unfold handle_heap.decref
  simp [handle_heap.is_null, hd, handle_heap.has_shared_memory, hid,
    RTable.decref, hc]

/-- Heap handle destruction when the handle is shared and this is the
last holder: elements destroyed and block deallocated. -/
theorem handle_heap_decref_shared_last {α : Type} (triv : Bool)
    (h : handle_heap α) (t : RTable) (w : World)
    (hd : h._data.isNone = false) (hid : h._id ≠ 0)
    (hc : t.counts h._id - 1 = 0) :
    handle_heap.decref triv h t w
      = ((RTable.decref t h._id).2,
         World.deallocate (World.destroyElems triv h._size w)) := by
  unfold handle_heap.decref
  simp [handle_heap.is_null, hd, handle_heap.has_shared_memory, hid,
    RTable.decref, hc]

/-- Shared handle destruction while other holders remain: only the table
count moves. -/
theorem handle_shared_decref_remain {α : Type} (triv : Bool)
    (s : handle_shared α) (t : RTable) (w : World)
    (hd : s._data.isNone = false) (hc : t.counts s._id - 1 ≠ 0) :
    handle_shared.decref triv s t w = ((RTable.decref t s._id).2, w) := by
  unfold handle_shared.decref
  simp [handle_shared.is_null, hd, RTable.decref, hc]

/-- Shared handle destruction as the last holder of a natively allocated
buffer: elements destroyed and block deallocated. -/
theorem handle_shared_decref_last_native {α : Type} (triv : Bool)
    (s : handle_shared α) (t : RTable) (w : World)
    (hd : s._data.isNone = false) (hf : s._foreign_handle = none)
    (hc : t.counts s._id - 1 = 0) :
    handle_shared.decref triv s t w
      = ((RTable.decref t s._id).2,
         World.deallocate (World.destroyElems triv s._size w)) := by
  unfold handle_shared.decref
  simp [handle_shared.is_null, hd, RTable.decref, hc, hf]

/-- Shared handle destruction as the last holder of a foreign buffer:
the foreign release callback fires instead of destruction and
deallocation. -/
theorem handle_shared_decref_last_foreign {α : Type} (triv : Bool)
    (s : handle_shared α) (t : RTable) (w : World)
    (hd : s._data.isNone = false) (hf : s._foreign_handle.isSome = true)
    (hc : t.counts s._id - 1 = 0) :
    handle_shared.decref triv s t w
      = ((RTable.decref t s._id).2,
         { w with foreignReleases := w.foreignReleases + 1 }) := by
  unfold handle_shared.decref
  simp [handle_shared.is_null, hd, RTable.decref, hc, hf]

/-!  The claims. -/

/-- Claim C7: a borrowed handle constructed from a heap handle with
element offset k exposes data() equal to the heap handle's data() plus k,
and the construction leaves the heap handle entirely unchanged: its data
pointer, size and shared-table id are the same after the construction as
before. -/
theorem borrowed_from_heap_offset_frame {α : Type} (x : handle_heap α) (k : Nat) :
    (handle_borrowed.ofHeap x k).1.data = dataPlus x.data k
    ∧ (handle_borrowed.ofHeap x k).2 = x
    ∧ (handle_borrowed.ofHeap x k).2.data = x.data
    ∧ (handle_borrowed.ofHeap x k).2.size = x.size
    ∧ (handle_borrowed.ofHeap x k).2._id = x._id :=
  ⟨rfl, rfl, rfl, rfl, rfl⟩

/-- Claim C8: copy-constructing a heap handle, whether from another heap
handle or from a shared handle, always yields an unshared clone: the new
handle's shared-table id is 0, and destroying the copy never consults the
reference-count table (the table comes back unchanged from its
destructor), whatever the source's sharing state. -/
theorem heap_copy_is_unshared_clone {α : Type} [Inhabited α]
    (x : handle_heap α) (s : handle_shared α) (w : World) :
    (handle_heap.copy x w).1._id = 0
    ∧ (handle_heap.copyFromShared s w).1._id = 0
    ∧ (∀ (triv : Bool) (t : RTable) (w' : World),
        (handle_heap.decref triv (handle_heap.copy x w).1 t w').1 = t)
    ∧ (∀ (triv : Bool) (t : RTable) (w' : World),
        (handle_heap.decref triv (handle_heap.copyFromShared s w).1 t w').1 = t) := by
  have hid : (handle_heap.copy x w).1._id = 0 := by
    unfold handle_heap.copy handle_heap.constructDNI
    by_cases h : x.size = 0 <;> simp [h, handle_heap.is_null]
  have hid' : (handle_heap.copyFromShared s w).1._id = 0 := by
    unfold handle_heap.copyFromShared handle_heap.constructDNI
    by_cases h : s.size = 0 <;> simp [h, handle_heap.is_null]
  refine ⟨hid, hid', ?_, ?_⟩ <;> intro triv t w' <;>
    unfold handle_heap.decref <;>
    simp [handle_heap.has_shared_memory, hid, hid']
  · by_cases h : (handle_heap.copy x w).1.is_null = true <;> simp [h]
  · by_cases h : (handle_heap.copyFromShared s w).1.is_null = true <;> simp [h]

/-- Claim C9 counterexample: the defaulted copy constructor of the
borrowed handle copies the parent field, so a borrowed handle
copy-constructed from another borrowed handle (not from a heap handle)
still reports a non-null parent(), refuting the claim that construction
from a borrowed handle yields parent() == nullptr. -/
theorem borrowed_copy_keeps_parent_cex :
    (handle_borrowed.copyCtor (handle_borrowed.ofHeap heapSample 0).1).parent ≠ none := by
  decide

/-- Claim C9 amended: a borrowed handle's parent() is non-null exactly
when it comes from the heap-handle/void-allocator constructor, directly
or through the defaulted copy constructor (which preserves the parent
field); the offset-taking borrowed-from-borrowed constructor and the
other-allocator, shared, stack, SSO, raw-pointer and default constructors
all yield parent() == nullptr. -/
theorem borrowed_parent_provenance {α : Type} {Size : Nat}
    (x : handle_heap α) (s : handle_shared α) (st : handle_stack α Size)
    (so : handle_sso α Size) (b : handle_borrowed α) (p : Option Ptr) (k : Nat) :
    (handle_borrowed.ofHeap x k).1.parent = some x
    ∧ (handle_borrowed.ofHeapAlloc x k).parent = none
    ∧ (handle_borrowed.ofShared s k).parent = none
    ∧ (handle_borrowed.ofStack st k).parent = none
    ∧ (handle_borrowed.ofSSO so k).parent = none
    ∧ (handle_borrowed.ofBorrowed b k).parent = none
    ∧ (handle_borrowed.ofPtr α p).parent = none
    ∧ (handle_borrowed.defaultCtor α).parent = none
    ∧ (handle_borrowed.copyCtor b).parent = b.parent :=
  ⟨rfl, rfl, rfl, rfl, rfl, rfl, rfl, rfl, rfl⟩

/-- Claim C2, evaluated at the failing input: copying a null shared
handle is claimed to perform no reference-count operation, but copy
assignment calls incref() unconditionally - assigning a null shared
handle over a null shared handle increments the table's reserved slot 0
from 0 to 1 (a reference-count operation on a null copy, and a violation
of incref's own debug assertion EXPECTS(!is_null())), while copy
construction of the same null handle leaves the table untouched. -/
theorem shared_null_assign_increfs_slot0 :
    (handle_shared.assign false nullShared nullShared tbl0 w0).1.is_null = true
    ∧ tbl0.counts 0 = 0
    ∧ (handle_shared.assign false nullShared nullShared tbl0 w0).2.1.counts 0 = 1
    ∧ (handle_shared.copyCtor nullShared tbl0).2.counts 0 = 0
    ∧ (handle_shared.copyCtor sharedSample tblOne).1.refcount
        (handle_shared.copyCtor sharedSample tblOne).2 = 2
    ∧ sharedSample.refcount (handle_shared.copyCtor sharedSample tblOne).2 = 2
    ∧ sharedSample.refcount
        (handle_shared.decref false (handle_shared.copyCtor sharedSample tblOne).1
          (handle_shared.copyCtor sharedSample tblOne).2 w0).1 = 1 := by
  refine ⟨rfl, rfl, ?_, rfl, ?_, ?_, ?_⟩ <;> rfl

/-- Claim C3 counterexample: the stack variant ignores the requested
size: constructing a capacity-5 stack handle with n = 0 yields
size() = 5, not 0, and is_null() = false although n = 0, refuting the
claim as stated for the stack variant. -/
theorem stack_construct_size_cex :
    (handle_stack.construct Nat 5 0 w0).1.size = 5
    ∧ (handle_stack.construct Nat 5 0 w0).1.is_null = false
    ∧ ¬ ((handle_stack.construct Nat 5 0 w0).1.size = 0
          ∧ ((handle_stack.construct Nat 5 0 w0).1.is_null = true ↔ (0 : Nat) = 0)) := by
  refine ⟨rfl, rfl, ?_⟩
  intro h
  exact absurd h.1 (by decide)

/-- Claim C3 amended: for the heap and SSO variants, construction at any
size n yields size() = n and is_null() true exactly when n = 0; the
stack variant ignores the requested size: its size() is the compile-time
capacity and its is_null() is false, whatever n. -/
theorem construct_size_is_null (α : Type) [Inhabited α] (n cap : Nat)
    (w : World) (hcap : 0 < cap) :
    ((handle_heap.construct α n w).1.size = n
      ∧ ((handle_heap.construct α n w).1.is_null = true ↔ n = 0))
    ∧ ((handle_sso.construct α cap n w).1.size = n
      ∧ ((handle_sso.construct α cap n w).1.is_null = true ↔ n = 0))
    ∧ ((handle_stack.construct α cap n w).1.size = cap
      ∧ (handle_stack.construct α cap n w).1.is_null = false) := by
  refine ⟨⟨?_, ?_⟩, ⟨?_, ?_⟩, rfl, rfl⟩
  · unfold handle_heap.construct
    by_cases h : n = 0 <;> simp [h, handle_heap.size]
  · unfold handle_heap.construct
    by_cases h : n = 0 <;> simp [h, handle_heap.is_null]
  · unfold handle_sso.construct
    by_cases h : n = 0
    · simp [h, handle_sso.size]
    · by_cases h2 : n ≤ cap <;> simp [h, h2, handle_sso.size]
  · unfold handle_sso.construct
    by_cases h : n = 0
    · simp [h, handle_sso.is_null]
    · by_cases h2 : n ≤ cap <;> simp [h, h2, handle_sso.is_null]

/-- Witness for the amended C3 at a concrete input: heap and SSO handles
of size 3 (capacity 5) and the capacity-5 stack handle. -/
theorem construct_size_is_null_witness :
    (handle_heap.construct Nat 3 w0).1.size = 3
    ∧ (handle_sso.construct Nat 5 3 w0).1.size = 3
    ∧ (handle_stack.construct Nat 5 3 w0).1.size = 5 := by
  have h := construct_size_is_null Nat 3 5 w0 (by decide)
  exact ⟨h.1.1, h.2.1.1, h.2.2.1⟩

/-- Claim C1: lazy promotion of a heap handle to shared is idempotent in
its id assignment: cross-constructing a shared handle from a heap handle
whose id field is 0 registers a fresh id, writes it into the heap
handle's id field, and increments the count; cross-constructing a second
shared handle from the same heap handle finds the non-zero id and reuses
it, so both shared handles and the heap handle end with one and the same
non-zero id - not two independent ids - whose count reflects the
registration and both promotions. -/
theorem cross_from_heap_id_idempotent {α : Type} (x x1 x2 : handle_heap α)
    (s1 s2 : handle_shared α) (t t1 t2 : RTable)
    (hnull : x.is_null = false) (hid : x._id = 0) (hwf : 1 ≤ t.nextId)
    (h1 : handle_shared.crossFromHeap x t = (s1, x1, t1))
    (h2 : handle_shared.crossFromHeap x1 t1 = (s2, x2, t2)) :
    s1._id = t.nextId ∧ s2._id = s1._id ∧ x1._id = s1._id ∧ x2._id = s1._id
    ∧ s1._id ≠ 0 ∧ t2.counts s1._id = 3 := by
  have hd : x._data.isNone = false := hnull
  have hne : t.nextId ≠ 0 := by omega
  rw [crossFromHeap_eq_of_unregistered x t hd hid] at h1
  simp only [Prod.mk.injEq] at h1
  obtain ⟨e1, e2, e3⟩ := h1
  subst e1
  subst e2
  subst e3
  rw [crossFromHeap_eq_of_registered ({ x with _id := t.nextId })
      (RTable.incref (RTable.get t).2 t.nextId) (by exact hd) (by exact hne)] at h2
  simp only [Prod.mk.injEq] at h2
  obtain ⟨f1, f2, f3⟩ := h2
  subst f1
  subst f2
  subst f3
  refine ⟨rfl, rfl, rfl, rfl, hne, ?_⟩
  simp [RTable.incref, RTable.get, updFn]

/-- Witness for C1 at a concrete input: promoting the sample heap handle
twice over the empty table yields id 1 both times and a final count
of 3. -/
theorem cross_from_heap_id_idempotent_witness :
    let r1 := handle_shared.crossFromHeap heapSample tbl0
    let r2 := handle_shared.crossFromHeap r1.2.1 r1.2.2
    r1.1._id = 1 ∧ r2.1._id = r1.1._id ∧ r2.2.1._id = r1.1._id
    ∧ r2.2.2.counts r1.1._id = 3 := by
  intro r1 r2
  have h := cross_from_heap_id_idempotent heapSample r1.2.1 r2.2.1 r1.1 r2.1
    tbl0 r1.2.2 r2.2.2 rfl rfl (by decide) rfl rfl
  exact ⟨h.1, h.2.1, h.2.2.2.1, h.2.2.2.2.2⟩

/-- Claim C4: a shared buffer is released exactly once.  A destruction
whose table decref reports remaining holders destroys no elements and
deallocates nothing, for the promoted heap handle and for shared handles
alike; the destruction whose decref reports zero destroys the elements
and deallocates - or fires the foreign release callback instead for a
foreign-owned buffer; and in the full scenario (heap handle promoted to
two shared handles, then all three destroyed) the first two destructions
leave the world untouched and exactly one deallocation happens in
total. -/
theorem shared_release_exactly_once {α : Type} (triv : Bool)
    (h : handle_heap α) (s : handle_shared α) (y : handle_heap α)
    (t t' u u' ty : RTable) (w : World)
    (hh : h.is_null = false) (hid : h._id ≠ 0)
    (hmany : 2 ≤ t.counts h._id) (hone : t'.counts h._id = 1)
    (hs : s.is_null = false) (smany : 2 ≤ u.counts s._id)
    (sone : u'.counts s._id = 1)
    (hy : y.is_null = false) (hyid : y._id = 0) (hwf : 1 ≤ ty.nextId) :
    ((handle_heap.decref triv h t w).2 = w)
    ∧ ((handle_heap.decref triv h t' w).2
        = World.deallocate (World.destroyElems triv h._size w))
    ∧ ((handle_shared.decref triv s u w).2 = w)
    ∧ (s._foreign_handle = none →
        (handle_shared.decref triv s u' w).2
          = World.deallocate (World.destroyElems triv s._size w))
    ∧ (s._foreign_handle.isSome = true →
        (handle_shared.decref triv s u' w).2
          = { w with foreignReleases := w.foreignReleases + 1 })
    ∧ (let r1 := handle_shared.crossFromHeap y ty
       let r2 := handle_shared.crossFromHeap r1.2.1 r1.2.2
       let d1 := handle_heap.decref triv r2.2.1 r2.2.2 w
       let d2 := handle_shared.decref triv r1.1 d1.1 d1.2
       let d3 := handle_shared.decref triv r2.1 d2.1 d2.2
       d1.2 = w ∧ d2.2 = w ∧ d3.2.deallocs = w.deallocs + 1
         ∧ d3.2.foreignReleases = w.foreignReleases) := by
  have hyd : y._data.isNone = false := hy
  have hne : ty.nextId ≠ 0 := by omega
  refine ⟨?_, ?_, ?_, ?_, ?_, ?_⟩
  · rw [handle_heap_decref_shared_remain triv h t w hh hid (by omega)]
  · rw [handle_heap_decref_shared_last triv h t' w hh hid (by omega)]
  · rw [handle_shared_decref_remain triv s u w hs (by omega)]
  · intro hf
    rw [handle_shared_decref_last_native triv s u' w hs hf (by omega)]
  · intro hf
    rw [handle_shared_decref_last_foreign triv s u' w hs hf (by omega)]
  · simp only [crossFromHeap_eq_of_unregistered y ty hyd hyid,
      crossFromHeap_eq_of_registered ({ y with _id := ty.nextId })
        (RTable.incref (RTable.get ty).2 ty.nextId) (by exact hyd) (by exact hne)]
    simp [handle_heap.decref, handle_shared.decref, handle_heap.is_null,
      handle_shared.is_null, handle_heap.has_shared_memory, hyd, hne,
      RTable.incref, RTable.get, RTable.decref, updFn,
      World.deallocate, World.destroyElems]

/-- Witness for C4 at a concrete input: destroying a promoted heap handle
while its shared count is 2 changes nothing in the world, and the full
promote-twice-then-destroy-all scenario on the sample heap handle ends
with exactly one deallocation. -/
theorem shared_release_exactly_once_witness :
    (handle_heap.decref false heapShared tblTwo w0).2 = w0
    ∧ (let r1 := handle_shared.crossFromHeap heapSample tbl0
       let r2 := handle_shared.crossFromHeap r1.2.1 r1.2.2
       let d1 := handle_heap.decref false r2.2.1 r2.2.2 w0
       let d2 := handle_shared.decref false r1.1 d1.1 d1.2
       let d3 := handle_shared.decref false r2.1 d2.1 d2.2
       d3.2.deallocs = w0.deallocs + 1) := by
  have h := shared_release_exactly_once false heapShared sharedSample heapSample
    tblTwo tblOne tblTwo tblOne tbl0 w0 rfl (by decide) (by decide) (by decide)
    rfl (by decide) (by decide) rfl rfl (by decide)
  exact ⟨h.1, h.2.2.2.2.2.2.2.1⟩

/-- Claim C5: SSO move construction and move assignment distinguish
residency.  From a heap-resident source (size above the inline capacity)
they steal the data pointer with zero allocator calls and zero element
copies; from an inline-resident source they placement-copy the source's
size elements into the destination's own inline buffer, producing
element-wise equal contents at a different storage address; in both
cases the source is left null (data nullptr, size 0). -/
theorem sso_move_residency {α : Type} {Size : Nat} (triv : Bool)
    (x y d : handle_sso α Size) (w : World)
    (hx : Size < x._size)
    (hy1 : y._size ≤ Size) (hy2 : 0 < y._size)
    (hyinv : y._data = some (Ptr.mk y.bufAddr 0))
    (hfw : y.bufAddr < w.next) (hdb : d.bufAddr ≠ y.bufAddr) :
    ((handle_sso.moveCtor x w).1._data = x._data
      ∧ (handle_sso.moveCtor x w).1._size = x._size
      ∧ (handle_sso.moveCtor x w).1.elems = x.elems
      ∧ (handle_sso.moveCtor x w).2.2.allocs = w.allocs
      ∧ (handle_sso.moveCtor x w).2.2.copies = w.copies
      ∧ (handle_sso.moveCtor x w).2.1._data = none
      ∧ (handle_sso.moveCtor x w).2.1._size = 0)
    ∧ ((handle_sso.moveCtor y w).1.elems = y.elems
      ∧ (handle_sso.moveCtor y w).1._size = y._size
      ∧ (handle_sso.moveCtor y w).1._data
          = some (Ptr.mk (handle_sso.moveCtor y w).1.bufAddr 0)
      ∧ (handle_sso.moveCtor y w).1._data ≠ y._data
      ∧ (handle_sso.moveCtor y w).2.2.allocs = w.allocs
      ∧ (handle_sso.moveCtor y w).2.2.copies = w.copies + y._size
      ∧ (handle_sso.moveCtor y w).2.1._data = none
      ∧ (handle_sso.moveCtor y w).2.1._size = 0)
    ∧ ((handle_sso.moveAssign triv d x w).1._data = x._data
      ∧ (handle_sso.moveAssign triv d x w).1._size = x._size
      ∧ (handle_sso.moveAssign triv d x w).1.elems = x.elems
      ∧ (handle_sso.moveAssign triv d x w).2.2.allocs = w.allocs
      ∧ (handle_sso.moveAssign triv d x w).2.2.copies = w.copies
      ∧ (handle_sso.moveAssign triv d x w).2.1._data = none
      ∧ (handle_sso.moveAssign triv d x w).2.1._size = 0)
    ∧ ((handle_sso.moveAssign triv d y w).1.elems = y.elems
      ∧ (handle_sso.moveAssign triv d y w).1._size = y._size
      ∧ (handle_sso.moveAssign triv d y w).1._data = some (Ptr.mk d.bufAddr 0)
      ∧ (handle_sso.moveAssign triv d y w).1._data ≠ y._data
      ∧ (handle_sso.moveAssign triv d y w).2.2.allocs = w.allocs
      ∧ (handle_sso.moveAssign triv d y w).2.2.copies = w.copies + y._size
      ∧ (handle_sso.moveAssign triv d y w).2.1._data = none
      ∧ (handle_sso.moveAssign triv d y w).2.1._size = 0) := by
  have hny : ¬ (Size < y._size) := by omega
  have hzy : y._size ≠ 0 := by omega
  have hwy : w.next ≠ y.bufAddr := by omega
  refine ⟨?_, ?_, ?_, ?_⟩
  · unfold handle_sso.moveCtor
    simp [hx, World.freshBlock]
  · unfold handle_sso.moveCtor
    simp [hny, hzy, World.freshBlock, World.copyElems, hyinv, Ptr.mk.injEq, hwy]
  · unfold handle_sso.moveAssign handle_sso.clean
    by_cases hdn : d.is_null
    · simp [hdn, hx]
    · by_cases hdh : d.on_heap <;>
        simp [hdn, hdh, hx, World.destroyElems, World.deallocate]
  · unfold handle_sso.moveAssign handle_sso.clean
    by_cases hdn : d.is_null
    · simp [hdn, hny, hzy, World.copyElems, hyinv, Ptr.mk.injEq, hdb]
    · by_cases hdh : d.on_heap <;>
        simp [hdn, hdh, hny, hzy, World.copyElems, World.destroyElems,
          World.deallocate, hyinv, Ptr.mk.injEq, hdb]

/-- Witness for C5 at a concrete input: moving from a heap-resident
capacity-2 SSO handle steals the pointer with no allocator call, and
moving from an inline-resident one copies into the new object's own
buffer and nulls the source. -/
theorem sso_move_residency_witness :
    (handle_sso.moveCtor ssoHeapRes wBig).1._data = ssoHeapRes._data
    ∧ (handle_sso.moveCtor ssoInline wBig).1._data ≠ ssoInline._data
    ∧ (handle_sso.moveAssign false ssoDest ssoInline wBig).2.1._data = none := by
  have h := sso_move_residency false ssoHeapRes ssoInline ssoDest wBig
    (by decide) (by decide) (by decide) rfl (by decide) (by decide)
  exact ⟨h.1.1, h.2.1.2.2.2.1, h.2.2.2.2.2.2.2.2.2.1⟩

/-- Claim C6: copy-constructing a non-null heap or SSO handle yields a
handle of equal size with element-wise equal contents whose data pointer
differs from the source's: fresh storage, never aliasing the source. -/
theorem copy_fresh_storage {α : Type} {Size : Nat} [Inhabited α]
    (x : handle_heap α) (y : handle_sso α Size) (w : World) (px py : Ptr)
    (hxd : x._data = some px) (hpx : px.block < w.next) (hxs : 0 < x._size)
    (hyd : y._data = some py) (hpy : py.block < w.next) (hys : 0 < y._size) :
    ((handle_heap.copy x w).1.size = x.size
      ∧ (handle_heap.copy x w).1.elems = x.elems
      ∧ (handle_heap.copy x w).1._data ≠ x._data
      ∧ (handle_heap.copy x w).1.is_null = false)
    ∧ ((handle_sso.copy y w).1.size = y.size
      ∧ (handle_sso.copy y w).1.elems = y.elems
      ∧ (handle_sso.copy y w).1._data ≠ y._data
      ∧ (handle_sso.copy y w).1.is_null = false) := by
  have hxz : x._size ≠ 0 := by omega
  have hyz : y._size ≠ 0 := by omega
  have hbx : px.block ≠ w.next := by omega
  constructor
  · unfold handle_heap.copy handle_heap.constructDNI
    simp [handle_heap.size, handle_heap.is_null, hxz, World.allocate,
      World.freshBlock, hxd, Ptr.mk.injEq]
    intro hc
    rw [← hc] at hpx
    simp at hpx
  · unfold handle_sso.copy handle_sso.constructDNI
    by_cases hsm : y._size ≤ Size
    · simp [handle_sso.size, handle_sso.is_null, hyz, hsm, World.freshBlock,
        hyd, Ptr.mk.injEq]
      intro hc
      rw [← hc] at hpy
      simp at hpy
    · simp [handle_sso.size, handle_sso.is_null, hyz, hsm, World.allocate,
        World.freshBlock, hyd, Ptr.mk.injEq]
      intro hc
      rw [← hc] at hpy
      simp at hpy

/-- Witness for C6 at a concrete input: copying the sample heap handle
and the inline SSO sample in a world where their blocks are live yields
same-contents clones at fresh addresses. -/
theorem copy_fresh_storage_witness :
    (handle_heap.copy heapSample wBig).1.elems = heapSample.elems
    ∧ (handle_heap.copy heapSample wBig).1._data ≠ heapSample._data
    ∧ (handle_sso.copy ssoInline wBig).1._data ≠ ssoInline._data := by
  have h := copy_fresh_storage heapSample ssoInline wBig (Ptr.mk 1 0)
    (Ptr.mk 3 0) rfl (by decide) (by decide) rfl (by decide) (by decide)
  exact ⟨h.1.2.1, h.1.2.2.1, h.2.2.2.1⟩

/-- Claim C10: move construction or move assignment from an
inline-resident SSO source holding elements of non-trivial type nulls
the source (data nullptr, size 0) without invoking any element
destructor on the source's inline elements - the destructor count moves
only by the destination's own clean-up in the assignment case - and the
subsequent destruction of the moved-from source destroys no elements. -/
theorem sso_move_no_source_dtors {α : Type} {Size : Nat}
    (y d : handle_sso α Size) (w : World)
    (hy1 : y._size ≤ Size) (hy2 : 0 < y._size) :
    ((handle_sso.moveCtor y w).2.2.dtors = w.dtors)
    ∧ ((handle_sso.moveCtor y w).2.1._data = none)
    ∧ ((handle_sso.moveCtor y w).2.1._size = 0)
    ∧ ((handle_sso.clean false (handle_sso.moveCtor y w).2.1
          (handle_sso.moveCtor y w).2.2).2
        = (handle_sso.moveCtor y w).2.2)
    ∧ ((handle_sso.moveAssign false d y w).2.2.dtors
        = (handle_sso.clean false d w).2.dtors)
    ∧ ((handle_sso.moveAssign false d y w).2.1._data = none)
    ∧ ((handle_sso.moveAssign false d y w).2.1._size = 0)
    ∧ ((handle_sso.clean false (handle_sso.moveAssign false d y w).2.1
          (handle_sso.moveAssign false d y w).2.2).2
        = (handle_sso.moveAssign false d y w).2.2) := by
  have hny : ¬ (Size < y._size) := by omega
  have hzy : y._size ≠ 0 := by omega
  have hsrc : (handle_sso.moveCtor y w).2.1._data = none := by
    unfold handle_sso.moveCtor
    simp [hny, hzy]
  have hsrc' : (handle_sso.moveAssign false d y w).2.1._data = none := by
    unfold handle_sso.moveAssign
    simp [hny, hzy]
  refine ⟨?_, hsrc, ?_, ?_, ?_, hsrc', ?_, ?_⟩
  · unfold handle_sso.moveCtor
    simp [hny, hzy, World.freshBlock, World.copyElems]
  · unfold handle_sso.moveCtor
    simp [hny, hzy]
  · unfold handle_sso.clean
    simp [handle_sso.is_null, hsrc]
  · unfold handle_sso.moveAssign
    simp [hny, hzy, World.copyElems]
  · unfold handle_sso.moveAssign
    simp [hny, hzy]
  · unfold handle_sso.clean
    simp [handle_sso.is_null, hsrc']

/-- Witness for C10 at a concrete input: moving out of the inline SSO
sample leaves the destructor count untouched and the source null. -/
theorem sso_move_no_source_dtors_witness :
    (handle_sso.moveCtor ssoInline wBig).2.2.dtors = wBig.dtors
    ∧ (handle_sso.moveCtor ssoInline wBig).2.1._data = none
    ∧ (handle_sso.moveAssign false ssoDest ssoInline wBig).2.1._data = none := by
  have h := sso_move_no_source_dtors ssoInline ssoDest wBig (by decide) (by decide)
  exact ⟨h.1, h.2.1, h.2.2.2.2.2.1⟩

end NdaMem
